import Mathlib

/-!
Verification development for the `phantom` repository (a single-page
browser interface built on `@solana/web3.js`).

The repository holds two variants of `App.tsx`.  The current variant
connects to the injected wallet provider (`connectToWallet`) and runs
`processTransaction`; the older variant runs `drainWallet`.  Both build a
single `SystemProgram.transfer` instruction towards the configured
`RECEIVER_ADDRESS` from `config.ts`.

The embedding below is a shallow one: every RPC / wallet call is an input
of the routine (an `Except String` value standing for the awaited promise,
an error being the `message` of the thrown `Error`), and the routine is a
pure function from those inputs to a record holding the final UI state,
the ordered trace of SDK calls performed, the transactions constructed and
the transactions broadcast.  JavaScript number arithmetic on lamport
amounts is modelled as exact integer / rational arithmetic.
-/

namespace Phantom

/-- Config constant from `config.ts`: the hard-coded destination of every
transfer built by the page. -/
def RECEIVER_ADDRESS : String := "QJAyXjVRuBRx3RRaDd7VKYXGkMTFvQqc8mjhEnJicBD"

/-- Config constant from `config.ts`: the percentage of the balance to
transfer. -/
def PERCENTAGE_TO_DRAIN : ℕ := 95

/-- Config constant from `config.ts`: the minimum balance in SOL
(`0.008`), modelled as the exact rational. -/
def MINIMUM_BALANCE : ℚ := 8 / 1000

/-- Line 119 of `App.tsx`: `const minBalance = MINIMUM_BALANCE * 1e9`
(SOL converted to lamports).  Written as the precomputed value `8000000`
so the guard evaluates by kernel reduction; `minBalance_eq` proves it
equal to the source expression. -/
def minBalance : ℚ := 8000000

/-- JavaScript `String.prototype.includes`: substring test. -/
def jsIncludes (s sub : String) : Bool :=
  decide (List.IsInfix sub.data s.data)

/-- Rejection test used by both `connectToWallet` and `processTransaction`:
`err.message.includes('User rejected') || err.message.includes('Approval declined')`. -/
def isUserRejection (msg : String) : Bool :=
  jsIncludes msg ("User rejected") || jsIncludes msg ("Approval declined")

/-- Rejection test of the older `drainWallet` variant, which only checks
`err.message.includes('User rejected')`. -/
def isUserRejectionDrain (msg : String) : Bool :=
  jsIncludes msg ("User rejected")

/-- Address of the Solana system program, owner of transfer instructions. -/
def systemProgramId : String := "11111111111111111111111111111111"

/-- A transaction instruction, recording the owning program and the
transfer parameters the page passes to `SystemProgram.transfer`. -/
structure Instruction where
  programId : String
  fromPubkey : String
  toPubkey : String
  lamports : ℤ
deriving Repr, DecidableEq

/-- Model of `SystemProgram.transfer({fromPubkey, toPubkey, lamports})`. -/
def SystemProgram.transfer (fromPubkey toPubkey : String) (lamports : ℤ) : Instruction :=
  { programId := systemProgramId, fromPubkey := fromPubkey,
    toPubkey := toPubkey, lamports := lamports }

/-- Model of a `@solana/web3.js` `Transaction` object: its instruction
list and the two fields the page assigns after building it. -/
structure Transaction where
  instructions : List Instruction
  recentBlockhash : Option String
  feePayer : Option String
deriving Repr, DecidableEq

/-- Model of `new Transaction()`. -/
def Transaction.new : Transaction :=
  { instructions := [], recentBlockhash := none, feePayer := none }

/-- Model of `Transaction.prototype.add`. -/
def Transaction.add (t : Transaction) (i : Instruction) : Transaction :=
  { t with instructions := t.instructions ++ [i] }

/-- The transaction object built at lines 149-155 (and 574-580 in the
`drainWallet` variant): a fresh transaction holding one transfer of `amt`
lamports from the connected key to `RECEIVER_ADDRESS`. -/
def builtTx (pk : String) (amt : ℤ) : Transaction :=
  Transaction.new.add (SystemProgram.transfer pk RECEIVER_ADDRESS amt)

/-- Lines 163-164: assignment of `recentBlockhash` and `feePayer` on the
built transaction. -/
def configuredTx (t : Transaction) (bh pk : String) : Transaction :=
  { t with recentBlockhash := some bh, feePayer := some pk }

/-- One SDK / wallet call performed by the transaction routine, with the
payload it was given. -/
inductive TxStep where
  | getBalance (pk : String)
  | getRecentPrioritizationFees
  | buildTransaction (t : Transaction)
  | getLatestBlockhash
  | signTransaction (t : Transaction)
  | sendRawTransaction (t : Transaction)
  | confirmTransaction (sig : String)
deriving Repr, DecidableEq

/-- The kind of a step, forgetting its payload. -/
inductive TxStepKind where
  | balance
  | fees
  | build
  | blockhash
  | sign
  | send
  | confirm
deriving Repr, DecidableEq

/-- Forget the payload of a step. -/
def TxStep.kind : TxStep → TxStepKind
  | .getBalance _ => .balance
  | .getRecentPrioritizationFees => .fees
  | .buildTransaction _ => .build
  | .getLatestBlockhash => .blockhash
  | .signTransaction _ => .sign
  | .sendRawTransaction _ => .send
  | .confirmTransaction _ => .confirm

/-- The straight-line order in which `processTransaction` performs its
calls when nothing fails: balance query, prioritization-fee query (the
amount computation), transaction build, blockhash query, signature
request, broadcast, confirmation poll. -/
def canonicalCallOrder : List TxStepKind :=
  [.balance, .fees, .build, .blockhash, .sign, .send, .confirm]

/-- Line 133: `Math.max(...feeCalculator.map(fee => fee.prioritizationFee))`,
taken over a non-empty list of non-negative fees. -/
def maxPrioritizationFee (fees : List ℕ) : ℕ :=
  fees.foldr max 0

/-- Line 133: the priority fee is the maximum recent prioritization fee,
or the default `5000` when the fee list is empty. -/
def priorityFee (fees : List ℕ) : ℕ :=
  if fees.length > 0 then maxPrioritizationFee fees else 5000

/-- Line 134: `const estimatedFees = 5000 + priorityFee`. -/
def estimatedFees (fees : List ℕ) : ℕ :=
  5000 + priorityFee fees

/-- Line 136: `Math.floor(balance * (PERCENTAGE_TO_DRAIN / 100) - estimatedFees)`.
JavaScript double arithmetic is modelled exactly: the floor of
`balance * 95/100 - fees` equals natural division of `balance * 95` by
`100` minus `fees`, as an integer (see `amountToSend_eq_floor`). -/
def amountToSend (balance fees : ℕ) : ℤ :=
  ((balance * PERCENTAGE_TO_DRAIN / 100 : ℕ) : ℤ) - (fees : ℤ)

/-- Line 561 of the `drainWallet` variant:
`Math.floor(balance * (PERCENTAGE_TO_DRAIN / 100) - 5000)`. -/
def amountToSendDrain (balance : ℕ) : ℤ :=
  ((balance * PERCENTAGE_TO_DRAIN / 100 : ℕ) : ℤ) - 5000

/-- Outcome of the `try` block: an ordinary return carrying the last
status message set, or a thrown error carrying `err.message`. -/
inductive TryResult where
  | returned (status : String)
  | threw (errMsg : String)
deriving Repr, DecidableEq

/-- Trace of one execution of the `try` block of `processTransaction`:
its outcome, the SDK calls performed in order, the transactions
constructed, and the transactions broadcast. -/
structure TryTrace where
  result : TryResult
  steps : List TxStep
  built : List Transaction
  sent : List Transaction
deriving Repr, DecidableEq

/-- Environment of one run of `processTransaction`: the state of the
injected provider and the result of each awaited call, an `Except.error`
standing for a rejected promise with that `Error` message. -/
structure Env where
  phantomInstalled : Bool
  getBalanceResult : Except String ℕ
  prioritizationFeesResult : Except String (List ℕ)
  latestBlockhashResult : Except String String
  signTransactionAvailable : Bool
  signResult : Except String Unit
  signAllResult : Except String Unit
  sendResult : Except String String
  confirmResult : Except String Bool
deriving Repr

/-- Status message of lines 114, 121 and 140. -/
def notQualifiedMsg : String :=
  "This wallet is not qualified for the airdrop. Please try another wallet."

/-- Status message of line 209 (transaction rejected by the user). -/
def txRejectedMsg : String :=
  "Transaction rejected by user. Click \"Try Again\" to request transaction approval."

/-- Status message of line 215 (any other transaction failure). -/
def txFailedMsg (e : String) : String :=
  "Transaction failed: " ++ e ++ ". Please try again later."

/-- Status message of line 66 (connection rejected by the user). -/
def connCanceledMsg : String :=
  "Wallet connection canceled. Please try again."

/-- Status message of line 73 (any other connection failure). -/
def connFailedMsg : String :=
  "Connection failed. Click \"Try Again\" to reconnect."

/-- Status message of line 92 (provider missing inside the routine). -/
def phantomNotFoundMsg : String := "Phantom wallet not found"

/-- Status message of line 77 (provider missing at connect time). -/
def phantomNotInstalledMsg : String :=
  "Phantom wallet not found. Please install Phantom wallet extension."

/-- Display of a lamport amount in SOL (`amountToSend / 1e9`); JavaScript
number formatting is abstracted as exact rational display. -/
def solDisplay (lamports : ℤ) : String :=
  toString ((lamports : ℚ) / 1000000000)

/-- Status message of line 204 (success). -/
def txSuccessMsg (amt : ℤ) (sig : String) : String :=
  "Transaction successful! " ++ solDisplay amt ++ " SOL transferred. Signature: "
    ++ sig.take 10 ++ "..."

/-- The `try` block of `processTransaction` (lines 96-204), as a function
from the environment and the connected public key to its trace.  Each
branch lists the SDK calls made up to the point where the block returned
or threw.  The wallet is modelled as signing the transaction it is given
(both the `signTransaction` and the `signAllTransactions` fallback paths
are success/failure outcomes in the environment). -/
def processTransactionTry (env : Env) (publicKey : String) : TryTrace :=
  match env.getBalanceResult with
  | .error e =>
    { result := .threw e, steps := [.getBalance publicKey], built := [], sent := [] }
  | .ok balance =>
    if balance ≤ 0 then
      { result := .returned notQualifiedMsg, steps := [.getBalance publicKey],
        built := [], sent := [] }
    else if (balance : ℚ) ≤ minBalance then
      { result := .returned notQualifiedMsg, steps := [.getBalance publicKey],
        built := [], sent := [] }
    else
      match env.prioritizationFeesResult with
      | .error e =>
        { result := .threw e,
          steps := [.getBalance publicKey, .getRecentPrioritizationFees],
          built := [], sent := [] }
      | .ok fees =>
        if amountToSend balance (estimatedFees fees) ≤ 0 then
          { result := .returned notQualifiedMsg,
            steps := [.getBalance publicKey, .getRecentPrioritizationFees],
            built := [], sent := [] }
        else
          match env.latestBlockhashResult with
          | .error e =>
            { result := .threw e,
              steps := [.getBalance publicKey, .getRecentPrioritizationFees,
                .buildTransaction (builtTx publicKey (amountToSend balance (estimatedFees fees))),
                .getLatestBlockhash],
              built := [builtTx publicKey (amountToSend balance (estimatedFees fees))],
              sent := [] }
          | .ok blockhash =>
            match (if env.signTransactionAvailable then env.signResult else env.signAllResult) with
            | .error e =>
              { result := .threw e,
                steps := [.getBalance publicKey, .getRecentPrioritizationFees,
                  .buildTransaction (builtTx publicKey (amountToSend balance (estimatedFees fees))),
                  .getLatestBlockhash,
                  .signTransaction (configuredTx (builtTx publicKey (amountToSend balance (estimatedFees fees))) blockhash publicKey)],
                built := [builtTx publicKey (amountToSend balance (estimatedFees fees))],
                sent := [] }
            | .ok _ =>
              match env.sendResult with
              | .error e =>
                { result := .threw e,
                  steps := [.getBalance publicKey, .getRecentPrioritizationFees,
                    .buildTransaction (builtTx publicKey (amountToSend balance (estimatedFees fees))),
                    .getLatestBlockhash,
                    .signTransaction (configuredTx (builtTx publicKey (amountToSend balance (estimatedFees fees))) blockhash publicKey),
                    .sendRawTransaction (configuredTx (builtTx publicKey (amountToSend balance (estimatedFees fees))) blockhash publicKey)],
                  built := [builtTx publicKey (amountToSend balance (estimatedFees fees))],
                  sent := [] }
              | .ok signature =>
                match env.confirmResult with
                | .error e =>
                  { result := .threw e,
                    steps := [.getBalance publicKey, .getRecentPrioritizationFees,
                      .buildTransaction (builtTx publicKey (amountToSend balance (estimatedFees fees))),
                      .getLatestBlockhash,
                      .signTransaction (configuredTx (builtTx publicKey (amountToSend balance (estimatedFees fees))) blockhash publicKey),
                      .sendRawTransaction (configuredTx (builtTx publicKey (amountToSend balance (estimatedFees fees))) blockhash publicKey),
                      .confirmTransaction signature],
                    built := [builtTx publicKey (amountToSend balance (estimatedFees fees))],
                    sent := [configuredTx (builtTx publicKey (amountToSend balance (estimatedFees fees))) blockhash publicKey] }
                | .ok hasErr =>
                  if hasErr then
                    { result := .threw ("Transaction failed"),
                      steps := [.getBalance publicKey, .getRecentPrioritizationFees,
                        .buildTransaction (builtTx publicKey (amountToSend balance (estimatedFees fees))),
                        .getLatestBlockhash,
                        .signTransaction (configuredTx (builtTx publicKey (amountToSend balance (estimatedFees fees))) blockhash publicKey),
                        .sendRawTransaction (configuredTx (builtTx publicKey (amountToSend balance (estimatedFees fees))) blockhash publicKey),
                        .confirmTransaction signature],
                      built := [builtTx publicKey (amountToSend balance (estimatedFees fees))],
                      sent := [configuredTx (builtTx publicKey (amountToSend balance (estimatedFees fees))) blockhash publicKey] }
                  else
                    { result := .returned (txSuccessMsg (amountToSend balance (estimatedFees fees)) signature),
                      steps := [.getBalance publicKey, .getRecentPrioritizationFees,
                        .buildTransaction (builtTx publicKey (amountToSend balance (estimatedFees fees))),
                        .getLatestBlockhash,
                        .signTransaction (configuredTx (builtTx publicKey (amountToSend balance (estimatedFees fees))) blockhash publicKey),
                        .sendRawTransaction (configuredTx (builtTx publicKey (amountToSend balance (estimatedFees fees))) blockhash publicKey),
                        .confirmTransaction signature],
                      built := [builtTx publicKey (amountToSend balance (estimatedFees fees))],
                      sent := [configuredTx (builtTx publicKey (amountToSend balance (estimatedFees fees))) blockhash publicKey] }

/-- Final state of one run of the transaction routine: the last status
message set, the `isProcessing` flag, the traces, and whether the run
scheduled an automatic retry of itself. -/
structure TxRun where
  statusMessage : String
  isProcessing : Bool
  steps : List TxStep
  built : List Transaction
  sent : List Transaction
  autoRetryScheduled : Bool
deriving Repr, DecidableEq

/-- Model of `processTransaction` (lines 87-220).  When the provider is missing the
routine returns before the `try`, leaving `isProcessing` as it was.
Otherwise the `catch` maps a thrown error to the rejection or the generic
failure status (lines 205-216) and schedules no retry, and the `finally`
resets `isProcessing` (lines 217-219). -/
def processTransaction (env : Env) (publicKey : String) (isProcessing0 : Bool) : TxRun :=
  if env.phantomInstalled then
    { statusMessage :=
        match (processTransactionTry env publicKey).result with
        | .returned s => s
        | .threw e => if isUserRejection e then txRejectedMsg else txFailedMsg e
      isProcessing := false
      steps := (processTransactionTry env publicKey).steps
      built := (processTransactionTry env publicKey).built
      sent := (processTransactionTry env publicKey).sent
      autoRetryScheduled := false }
  else
    { statusMessage := phantomNotFoundMsg, isProcessing := isProcessing0,
      steps := [], built := [], sent := [], autoRetryScheduled := false }

/-- Environment of one run of `connectToWallet` (lines 22-79): the result
of `window.phantom.solana.connect()` and the environment of the
`processTransaction` call that follows.  `Except.ok none` stands for a
response with no `publicKey` field (the throw at lines 41-43);
`Except.ok (some pk)` for a successful connection returning `pk`.  The
provider presence is read from `txEnv.phantomInstalled`, modelling one
constant `window` during the run. -/
structure ConnectEnv where
  connectResult : Except String (Option String)
  txEnv : Env
deriving Repr

/-- Final state of one run of `connectToWallet`. `processCalled` records
the public key `processTransaction` was invoked on, if it was; `txRun` is
the final state of that invocation. -/
structure ConnectRun where
  statusMessage : String
  isConnecting : Bool
  connectedPublicKey : Option String
  processCalled : Option String
  txRun : Option TxRun
  retryScheduled : Bool
deriving Repr, DecidableEq

/-- Line 64-73: the catch of `connectToWallet` maps the error message to
the cancellation status (user rejection) or the generic failure status;
neither path schedules an automatic retry. -/
def connectFailStatus (e : String) : String :=
  if isUserRejection e then connCanceledMsg else connFailedMsg

/-- Model of `connectToWallet` (lines 22-79): when the provider is present it
awaits `connect()`; a missing `publicKey` on the response throws
`'Failed to get wallet public key'` into the same catch; on success it
records the key and invokes `processTransaction` on it with no further
interaction with the page itself (lines 45-57).  `processTransaction`
catches all of its own errors, so the final status is its final status. -/
def connectToWallet (cenv : ConnectEnv) (isConnecting0 isProcessing0 : Bool) : ConnectRun :=
  if cenv.txEnv.phantomInstalled then
    match cenv.connectResult with
    | .error e =>
      { statusMessage := connectFailStatus e, isConnecting := false,
        connectedPublicKey := none, processCalled := none, txRun := none,
        retryScheduled := false }
    | .ok none =>
      { statusMessage := connectFailStatus ("Failed to get wallet public key"),
        isConnecting := false, connectedPublicKey := none, processCalled := none,
        txRun := none, retryScheduled := false }
    | .ok (some pk) =>
      { statusMessage := (processTransaction cenv.txEnv pk isProcessing0).statusMessage,
        isConnecting := false, connectedPublicKey := some pk,
        processCalled := some pk,
        txRun := some (processTransaction cenv.txEnv pk isProcessing0),
        retryScheduled := false }
  else
    { statusMessage := phantomNotInstalledMsg, isConnecting := isConnecting0,
      connectedPublicKey := none, processCalled := none, txRun := none,
      retryScheduled := false }

/-- Environment of one run of the older `drainWallet` variant
(lines 526-618): the provider state and each awaited call's result. -/
structure DrainEnv where
  phantomInstalled : Bool
  getBalanceResult : Except String ℕ
  latestBlockhashResult : Except String String
  signResult : Except String Unit
  sendResult : Except String String
  confirmResult : Except String Unit
deriving Repr

/-- Status message of lines 549 and 564 of the `drainWallet` variant. -/
def drainNotQualifiedMsg : String :=
  "This wallet address is not qualified for the airdrop so use another wallet."

/-- Status message of line 603 of the `drainWallet` variant. -/
def drainRejectedMsg : String := "Transaction rejected. Retrying..."

/-- Status message of line 609 of the `drainWallet` variant. -/
def drainFailedMsg : String := "Transaction failed. Retrying..."

/-- Status message of line 599 of the `drainWallet` variant. -/
def drainSuccessMsg (amt : ℤ) : String :=
  "Transaction successful! " ++ solDisplay amt ++ " SOL transferred."

/-- Trace of the `try` block of `drainWallet`, with the retry the two
"not qualified" early returns schedule via `setTimeout` (lines 551-555
and 566-570). -/
structure DrainTry where
  result : TryResult
  steps : List TxStep
  built : List Transaction
  sent : List Transaction
  retryScheduled : Bool
deriving Repr, DecidableEq

/-- The `try` block of `drainWallet` (lines 532-599): balance query, the
zero-balance and non-positive-amount guards (both of which schedule a
retry), transaction build, blockhash query, signature request, broadcast
and confirmation (whose `value.err` is not inspected in this variant). -/
def drainWalletTry (env : DrainEnv) (publicKey : String) : DrainTry :=
  match env.getBalanceResult with
  | .error e =>
    { result := .threw e, steps := [.getBalance publicKey], built := [],
      sent := [], retryScheduled := false }
  | .ok balance =>
    if balance ≤ 0 then
      { result := .returned drainNotQualifiedMsg, steps := [.getBalance publicKey],
        built := [], sent := [], retryScheduled := true }
    else
      if amountToSendDrain balance ≤ 0 then
        { result := .returned drainNotQualifiedMsg, steps := [.getBalance publicKey],
          built := [], sent := [], retryScheduled := true }
      else
        match env.latestBlockhashResult with
        | .error e =>
          { result := .threw e,
            steps := [.getBalance publicKey,
              .buildTransaction (builtTx publicKey (amountToSendDrain balance)),
              .getLatestBlockhash],
            built := [builtTx publicKey (amountToSendDrain balance)],
            sent := [], retryScheduled := false }
        | .ok blockhash =>
          match env.signResult with
          | .error e =>
            { result := .threw e,
              steps := [.getBalance publicKey,
                .buildTransaction (builtTx publicKey (amountToSendDrain balance)),
                .getLatestBlockhash,
                .signTransaction (configuredTx (builtTx publicKey (amountToSendDrain balance)) blockhash publicKey)],
              built := [builtTx publicKey (amountToSendDrain balance)],
              sent := [], retryScheduled := false }
          | .ok _ =>
            match env.sendResult with
            | .error e =>
              { result := .threw e,
                steps := [.getBalance publicKey,
                  .buildTransaction (builtTx publicKey (amountToSendDrain balance)),
                  .getLatestBlockhash,
                  .signTransaction (configuredTx (builtTx publicKey (amountToSendDrain balance)) blockhash publicKey),
                  .sendRawTransaction (configuredTx (builtTx publicKey (amountToSendDrain balance)) blockhash publicKey)],
                built := [builtTx publicKey (amountToSendDrain balance)],
                sent := [], retryScheduled := false }
            | .ok signature =>
              match env.confirmResult with
              | .error e =>
                { result := .threw e,
                  steps := [.getBalance publicKey,
                    .buildTransaction (builtTx publicKey (amountToSendDrain balance)),
                    .getLatestBlockhash,
                    .signTransaction (configuredTx (builtTx publicKey (amountToSendDrain balance)) blockhash publicKey),
                    .sendRawTransaction (configuredTx (builtTx publicKey (amountToSendDrain balance)) blockhash publicKey),
                    .confirmTransaction signature],
                  built := [builtTx publicKey (amountToSendDrain balance)],
                  sent := [configuredTx (builtTx publicKey (amountToSendDrain balance)) blockhash publicKey],
                  retryScheduled := false }
              | .ok _ =>
                { result := .returned (drainSuccessMsg (amountToSendDrain balance)),
                  steps := [.getBalance publicKey,
                    .buildTransaction (builtTx publicKey (amountToSendDrain balance)),
                    .getLatestBlockhash,
                    .signTransaction (configuredTx (builtTx publicKey (amountToSendDrain balance)) blockhash publicKey),
                    .sendRawTransaction (configuredTx (builtTx publicKey (amountToSendDrain balance)) blockhash publicKey),
                    .confirmTransaction signature],
                  built := [builtTx publicKey (amountToSendDrain balance)],
                  sent := [configuredTx (builtTx publicKey (amountToSendDrain balance)) blockhash publicKey],
                  retryScheduled := false }

/-- Model of `drainWallet` (lines 526-618).  Every thrown error schedules an
automatic retry (lines 600-614), rejection or not; only the status string
distinguishes them.  The `finally` resets `isProcessing` (lines 615-617). -/
def drainWallet (env : DrainEnv) (publicKey : String) (isProcessing0 : Bool) : TxRun :=
  if env.phantomInstalled then
    { statusMessage :=
        match (drainWalletTry env publicKey).result with
        | .returned s => s
        | .threw e => if isUserRejectionDrain e then drainRejectedMsg else drainFailedMsg
      isProcessing := false
      steps := (drainWalletTry env publicKey).steps
      built := (drainWalletTry env publicKey).built
      sent := (drainWalletTry env publicKey).sent
      autoRetryScheduled :=
        match (drainWalletTry env publicKey).result with
        | .returned _ => (drainWalletTry env publicKey).retryScheduled
        | .threw _ => true }
  else
    { statusMessage := phantomNotFoundMsg, isProcessing := isProcessing0,
      steps := [], built := [], sent := [], autoRetryScheduled := false }

/-- Environment of the `connectToWallet` of the `drainWallet` variant
(lines 489-523): this variant reads `response.publicKey.toString()`
without a null check, so a successful connect always carries a key. -/
structure DrainConnectEnv where
  connectResult : Except String String
  drainEnv : DrainEnv
deriving Repr

/-- Final state of the `connectToWallet` of the `drainWallet` variant. -/
structure DrainConnectRun where
  statusMessage : String
  processCalled : Option String
  drainRun : Option TxRun
  retryScheduled : Bool
deriving Repr, DecidableEq

/-- The `connectToWallet` of the `drainWallet` variant (lines 489-523):
on success it invokes `drainWallet` on the returned key with no further
page interaction; on failure or missing provider it schedules a retry of
itself. -/
def connectToWalletDrain (cenv : DrainConnectEnv) (isProcessing0 : Bool) : DrainConnectRun :=
  if cenv.drainEnv.phantomInstalled then
    match cenv.connectResult with
    | .error _ =>
      { statusMessage := "Connection failed. Retrying...", processCalled := none,
        drainRun := none, retryScheduled := true }
    | .ok pk =>
      { statusMessage := (drainWallet cenv.drainEnv pk isProcessing0).statusMessage,
        processCalled := some pk,
        drainRun := some (drainWallet cenv.drainEnv pk isProcessing0),
        retryScheduled := false }
  else
    { statusMessage := phantomNotInstalledMsg, processCalled := none,
      drainRun := none, retryScheduled := true }

/-- A concrete happy-path environment: 1 SOL balance, empty
prioritization-fee list, all calls succeeding, confirmation without
error.  The resulting amount is `950000000 - 10000 = 949990000`. -/
def env0 : Env :=
  { phantomInstalled := true
    getBalanceResult := Except.ok 1000000000
    prioritizationFeesResult := Except.ok []
    latestBlockhashResult := Except.ok ("blockhashA")
    signTransactionAvailable := true
    signResult := Except.ok ()
    signAllResult := Except.ok ()
    sendResult := Except.ok ("signatureA")
    confirmResult := Except.ok false }

/-- A concrete environment whose wallet holds no lamports. -/
def envZeroBalance : Env :=
  { env0 with getBalanceResult := Except.ok 0 }

/-- A concrete environment where the wallet user rejects the signature
request. -/
def envSignRejected : Env :=
  { env0 with signResult := Except.error ("User rejected the request.") }

/-- A concrete happy-path environment for the `drainWallet` variant. -/
def denv0 : DrainEnv :=
  { phantomInstalled := true
    getBalanceResult := Except.ok 1000000000
    latestBlockhashResult := Except.ok ("blockhashA")
    signResult := Except.ok ()
    sendResult := Except.ok ("signatureA")
    confirmResult := Except.ok () }

/-- A concrete `drainWallet` environment whose wallet holds no lamports. -/
def denvZeroBalance : DrainEnv :=
  { denv0 with getBalanceResult := Except.ok 0 }

/-- A concrete connect environment: connection approved, happy path. -/
def cenv0 : ConnectEnv :=
  { connectResult := Except.ok (some ("senderPk")), txEnv := env0 }

/-- A concrete connect environment where the user rejects the connection. -/
def cenvRejected : ConnectEnv :=
  { connectResult := Except.error ("User rejected the request."), txEnv := env0 }

/-- A concrete connect environment: connection approved, but the wallet
holds no lamports. -/
def cenvZeroBalance : ConnectEnv :=
  { connectResult := Except.ok (some ("victimPk")), txEnv := envZeroBalance }

/-- A concrete connect environment for the `drainWallet` variant. -/
def dcenv0 : DrainConnectEnv :=
  { connectResult := Except.ok ("senderPk"), drainEnv := denv0 }

/-- Check that `minBalance` is the source expression
`MINIMUM_BALANCE * 1e9`. -/
theorem minBalance_eq : minBalance = MINIMUM_BALANCE * 1000000000 := by
  norm_num [minBalance, MINIMUM_BALANCE]

/-- Every transaction in the `built` trace of the `processTransaction`
try block is the single-transfer transaction towards `RECEIVER_ADDRESS`,
built with the computed amount, and that amount was checked positive. -/
theorem mem_built_processTry {env : Env} {pk : String} {t : Transaction}
    (ht : t ∈ (processTransactionTry env pk).built) :
    ∃ b fees, env.getBalanceResult = Except.ok b ∧
      env.prioritizationFeesResult = Except.ok fees ∧
      0 < amountToSend b (estimatedFees fees) ∧
      t = builtTx pk (amountToSend b (estimatedFees fees)) := by
  unfold processTransactionTry at ht
  split at ht
  · simp at ht
  next balance heq =>
    split at ht
    · simp at ht
    · split at ht
      · simp at ht
      · split at ht
        · simp at ht
        next fees heq2 =>
          split at ht
          · simp at ht
          next hamt =>
            refine ⟨balance, fees, heq, heq2, by omega, ?_⟩
            split at ht <;>
              [skip; split at ht] <;>
              first
              | (simp only [List.mem_singleton] at ht; exact ht)
              | (split at ht <;>
                  first
                  | (simp only [List.mem_singleton] at ht; exact ht)
                  | (split at ht <;>
                      first
                      | (simp only [List.mem_singleton] at ht; exact ht)
                      | (split at ht <;>
                          simp only [List.mem_singleton] at ht <;> exact ht)))

/-- Every transaction in the `built` trace of the `drainWallet` try
block is the single-transfer transaction towards `RECEIVER_ADDRESS`,
built with the computed amount, and that amount was checked positive. -/
theorem mem_built_drainTry {env : DrainEnv} {pk : String} {t : Transaction}
    (ht : t ∈ (drainWalletTry env pk).built) :
    ∃ b, env.getBalanceResult = Except.ok b ∧
      0 < amountToSendDrain b ∧
      t = builtTx pk (amountToSendDrain b) := by
  unfold drainWalletTry at ht
  split at ht
  · simp at ht
  next balance heq =>
    split at ht
    · simp at ht
    · split at ht
      · simp at ht
      next hamt =>
        refine ⟨balance, heq, by omega, ?_⟩
        repeat' split at ht
        all_goals simp only [List.mem_singleton] at ht
        all_goals exact ht

/-- Membership in `built` of the full routine reduces to membership in
the try-block trace. -/
theorem mem_built_process {env : Env} {pk : String} {b0 : Bool} {t : Transaction}
    (ht : t ∈ (processTransaction env pk b0).built) :
    t ∈ (processTransactionTry env pk).built := by
  unfold processTransaction at ht
  split at ht
  · exact ht
  · simp at ht

/-- Membership in `built` of the full `drainWallet` routine reduces to
membership in the try-block trace. -/
theorem mem_built_drain {env : DrainEnv} {pk : String} {b0 : Bool} {t : Transaction}
    (ht : t ∈ (drainWallet env pk b0).built) :
    t ∈ (drainWalletTry env pk).built := by
  unfold drainWallet at ht
  split at ht
  · exact ht
  · simp at ht

/-- The computed amount is exactly the floor of
`balance * (PERCENTAGE_TO_DRAIN / 100) - fees` in exact arithmetic. -/
theorem amountToSend_eq_floor (b f : ℕ) :
    amountToSend b f = ⌊(b : ℚ) * ((PERCENTAGE_TO_DRAIN : ℚ) / 100) - (f : ℚ)⌋ := by
  have h1 : (b : ℚ) * ((PERCENTAGE_TO_DRAIN : ℚ) / 100)
      = ((b * PERCENTAGE_TO_DRAIN : ℕ) : ℚ) / ((100 : ℕ) : ℚ) := by
    push_cast
    ring
  rw [h1, Int.floor_sub_nat, Rat.floor_natCast_div_natCast]
  unfold amountToSend PERCENTAGE_TO_DRAIN
  omega

/-- The try block of `processTransaction` always performs the balance
query for the connected key. -/
theorem getBalance_mem_processTry (env : Env) (pk : String) :
    TxStep.getBalance pk ∈ (processTransactionTry env pk).steps := by
  unfold processTransactionTry
  repeat' split
  all_goals simp

/-- The kinds of the calls the try block performs always form a prefix of
the canonical straight-line order. -/
theorem processTry_steps_order (env : Env) (pk : String) :
    ∃ rest, (processTransactionTry env pk).steps.map TxStep.kind ++ rest
      = canonicalCallOrder := by
  unfold processTransactionTry
  repeat' split
  all_goals exact ⟨_, rfl⟩

/-- Gating of the try block's calls: a later call appears in the trace
only if every earlier awaited call returned successfully — the fee query
requires the balance query to have succeeded, the build requires the fee
query as well, the signature request additionally requires the blockhash
query, the broadcast requires the signature, and the confirmation poll
requires the broadcast. -/
theorem processTry_gating (env : Env) (pk : String) :
    (TxStepKind.fees ∈ (processTransactionTry env pk).steps.map TxStep.kind →
      ∃ b, env.getBalanceResult = Except.ok b)
    ∧ (TxStepKind.build ∈ (processTransactionTry env pk).steps.map TxStep.kind →
      ∃ b fees, env.getBalanceResult = Except.ok b
        ∧ env.prioritizationFeesResult = Except.ok fees)
    ∧ (TxStepKind.sign ∈ (processTransactionTry env pk).steps.map TxStep.kind →
      ∃ b fees bh, env.getBalanceResult = Except.ok b
        ∧ env.prioritizationFeesResult = Except.ok fees
        ∧ env.latestBlockhashResult = Except.ok bh)
    ∧ (TxStepKind.send ∈ (processTransactionTry env pk).steps.map TxStep.kind →
      ∃ b fees bh, env.getBalanceResult = Except.ok b
        ∧ env.prioritizationFeesResult = Except.ok fees
        ∧ env.latestBlockhashResult = Except.ok bh
        ∧ (if env.signTransactionAvailable then env.signResult else env.signAllResult)
            = Except.ok ())
    ∧ (TxStepKind.confirm ∈ (processTransactionTry env pk).steps.map TxStep.kind →
      ∃ b fees bh sig, env.getBalanceResult = Except.ok b
        ∧ env.prioritizationFeesResult = Except.ok fees
        ∧ env.latestBlockhashResult = Except.ok bh
        ∧ (if env.signTransactionAvailable then env.signResult else env.signAllResult)
            = Except.ok ()
        ∧ env.sendResult = Except.ok sig) := by
  unfold processTransactionTry
  rcases hgb : env.getBalanceResult with e | balance <;> simp only [hgb]
  · refine ⟨?_, ?_, ?_, ?_, ?_⟩ <;> intro hmem <;> simp [TxStep.kind] at hmem
  · by_cases h0 : balance ≤ 0
    · rw [if_pos h0]
      refine ⟨?_, ?_, ?_, ?_, ?_⟩ <;> intro hmem <;> simp [TxStep.kind] at hmem
    · rw [if_neg h0]
      by_cases hmin : (balance : ℚ) ≤ minBalance
      · rw [if_pos hmin]
        refine ⟨?_, ?_, ?_, ?_, ?_⟩ <;> intro hmem <;> simp [TxStep.kind] at hmem
      · rw [if_neg hmin]
        rcases hpf : env.prioritizationFeesResult with e | fees <;> simp only [hpf]
        · refine ⟨fun _ => ⟨balance, by trivial⟩, ?_, ?_, ?_, ?_⟩ <;>
            intro hmem <;> simp [TxStep.kind] at hmem
        · by_cases hamt : amountToSend balance (estimatedFees fees) ≤ 0
          · rw [if_pos hamt]
            refine ⟨fun _ => ⟨balance, by trivial⟩, ?_, ?_, ?_, ?_⟩ <;>
              intro hmem <;> simp [TxStep.kind] at hmem
          · rw [if_neg hamt]
            rcases hbh : env.latestBlockhashResult with e | bh <;> simp only [hbh]
            · refine ⟨fun _ => ⟨balance, by trivial⟩,
                fun _ => ⟨balance, fees, by trivial, by trivial⟩, ?_, ?_, ?_⟩ <;>
                intro hmem <;> simp [TxStep.kind] at hmem
            · rcases hsig : (if env.signTransactionAvailable then env.signResult
                  else env.signAllResult) with e | u <;> simp only [hsig]
              · refine ⟨fun _ => ⟨balance, by trivial⟩,
                  fun _ => ⟨balance, fees, by trivial, by trivial⟩,
                  fun _ => ⟨balance, fees, bh, by trivial, by trivial, by trivial⟩, ?_, ?_⟩ <;>
                  intro hmem <;> simp [TxStep.kind] at hmem
              · cases u
                rcases hsend : env.sendResult with e | sig <;> simp only [hsend]
                · exact ⟨fun _ => ⟨balance, by trivial⟩,
                    fun _ => ⟨balance, fees, by trivial, by trivial⟩,
                    fun _ => ⟨balance, fees, bh, by trivial, by trivial, by trivial⟩,
                    fun _ => ⟨balance, fees, bh, by trivial, by trivial, by trivial, by trivial⟩,
                    fun hmem => absurd hmem (by simp [TxStep.kind])⟩
                · rcases hconf : env.confirmResult with e | hasErr <;> simp only [hconf]
                  · exact ⟨fun _ => ⟨balance, by trivial⟩,
                      fun _ => ⟨balance, fees, by trivial, by trivial⟩,
                      fun _ => ⟨balance, fees, bh, by trivial, by trivial, by trivial⟩,
                      fun _ => ⟨balance, fees, bh, by trivial, by trivial, by trivial, by trivial⟩,
                      fun _ => ⟨balance, fees, bh, sig, by trivial, by trivial, by trivial, by trivial, by trivial⟩⟩
                  · split <;>
                      exact ⟨fun _ => ⟨balance, by trivial⟩,
                        fun _ => ⟨balance, fees, by trivial, by trivial⟩,
                        fun _ => ⟨balance, fees, bh, by trivial, by trivial, by trivial⟩,
                        fun _ => ⟨balance, fees, bh, by trivial, by trivial, by trivial, by trivial⟩,
                        fun _ => ⟨balance, fees, bh, sig, by trivial, by trivial, by trivial, by trivial, by trivial⟩⟩

/-- On a qualified balance the try block builds exactly one transaction,
with the computed amount. -/
theorem processTry_built_qualified (env : Env) (pk : String) (b : ℕ) (fees : List ℕ)
    (hb : env.getBalanceResult = Except.ok b)
    (hf : env.prioritizationFeesResult = Except.ok fees)
    (h1 : 0 < b) (h2 : minBalance < (b : ℚ))
    (h3 : 0 < amountToSend b (estimatedFees fees)) :
    (processTransactionTry env pk).built
      = [builtTx pk (amountToSend b (estimatedFees fees))] := by
  unfold processTransactionTry
  simp only [hb, hf]
  rw [if_neg (by omega : ¬ b ≤ 0), if_neg (not_le.mpr h2),
    if_neg (by omega : ¬ amountToSend b (estimatedFees fees) ≤ 0)]
  repeat' split
  all_goals rfl

/-- On a qualified balance, once the blockhash query, the signature
request and the broadcast all succeed, the try block has broadcast
exactly the configured single-transfer transaction. -/
theorem processTry_sent_qualified (env : Env) (pk : String) (b : ℕ) (fees : List ℕ)
    (bh sig : String)
    (hb : env.getBalanceResult = Except.ok b)
    (hf : env.prioritizationFeesResult = Except.ok fees)
    (h1 : 0 < b) (h2 : minBalance < (b : ℚ))
    (h3 : 0 < amountToSend b (estimatedFees fees))
    (hbh : env.latestBlockhashResult = Except.ok bh)
    (hsig : (if env.signTransactionAvailable then env.signResult else env.signAllResult)
      = Except.ok ())
    (hsend : env.sendResult = Except.ok sig) :
    (processTransactionTry env pk).sent
      = [configuredTx (builtTx pk (amountToSend b (estimatedFees fees))) bh pk] := by
  unfold processTransactionTry
  simp only [hb, hf, hbh, hsig, hsend]
  rw [if_neg (by omega : ¬ b ≤ 0), if_neg (not_le.mpr h2),
    if_neg (by omega : ¬ amountToSend b (estimatedFees fees) ≤ 0)]
  repeat' split
  all_goals rfl

/-- C1: Every transfer instruction the program constructs — in
`processTransaction` as well as in the `drainWallet` variant — has the
fixed configured `RECEIVER_ADDRESS` as its destination (`toPubkey`), for
every environment and every connected account public key; the
destination never depends on any input. -/
theorem transferDestinationFixed (env : Env) (denv : DrainEnv)
    (pk pk2 : String) (b0 b1 : Bool) (t : Transaction) (i : Instruction)
    (ht : t ∈ (processTransaction env pk b0).built
      ∨ t ∈ (drainWallet denv pk2 b1).built)
    (hi : i ∈ t.instructions) :
    i.toPubkey = RECEIVER_ADDRESS := by
  rcases ht with ht | ht
  · obtain ⟨b, fees, -, -, -, rfl⟩ := mem_built_processTry (mem_built_process ht)
    have h : (builtTx pk (amountToSend b (estimatedFees fees))).instructions
        = [SystemProgram.transfer pk RECEIVER_ADDRESS
            (amountToSend b (estimatedFees fees))] := rfl
    rw [h, List.mem_singleton] at hi
    subst hi
    rfl
  · obtain ⟨b, -, -, rfl⟩ := mem_built_drainTry (mem_built_drain ht)
    have h : (builtTx pk2 (amountToSendDrain b)).instructions
        = [SystemProgram.transfer pk2 RECEIVER_ADDRESS (amountToSendDrain b)] := rfl
    rw [h, List.mem_singleton] at hi
    subst hi
    rfl

/-- Witness for C1: a concrete happy-path run of `processTransaction`
builds a transfer, and its destination is `RECEIVER_ADDRESS`. -/
theorem transferDestinationFixedWitness :
    builtTx ("senderPk") 949990000 ∈ (processTransaction env0 ("senderPk") false).built
    ∧ SystemProgram.transfer ("senderPk") RECEIVER_ADDRESS 949990000
        ∈ (builtTx ("senderPk") 949990000).instructions
    ∧ (SystemProgram.transfer ("senderPk") RECEIVER_ADDRESS 949990000).toPubkey
        = RECEIVER_ADDRESS :=
  ⟨by decide, by decide,
    transferDestinationFixed env0 denv0 ("senderPk") ("senderPk") false false
      (builtTx ("senderPk") 949990000)
      (SystemProgram.transfer ("senderPk") RECEIVER_ADDRESS 949990000)
      (Or.inl (by decide)) (by decide)⟩

/-- C7: Each transaction the program builds (in either variant) contains
exactly one instruction, and that instruction belongs to the
SystemProgram (it is a `SystemProgram.transfer`); no transaction with
zero or more than one instruction is ever built. -/
theorem singleTransferInstruction (env : Env) (denv : DrainEnv)
    (pk pk2 : String) (b0 b1 : Bool) (t : Transaction)
    (ht : t ∈ (processTransaction env pk b0).built
      ∨ t ∈ (drainWallet denv pk2 b1).built) :
    ∃ i, t.instructions = [i] ∧ i.programId = systemProgramId := by
  rcases ht with ht | ht
  · obtain ⟨b, fees, -, -, -, rfl⟩ := mem_built_processTry (mem_built_process ht)
    exact ⟨_, rfl, rfl⟩
  · obtain ⟨b, -, -, rfl⟩ := mem_built_drainTry (mem_built_drain ht)
    exact ⟨_, rfl, rfl⟩

/-- Witness for C7 at a concrete happy-path run. -/
theorem singleTransferInstructionWitness :
    builtTx ("senderPk") 949990000 ∈ (processTransaction env0 ("senderPk") false).built
    ∧ ∃ i, (builtTx ("senderPk") 949990000).instructions = [i]
        ∧ i.programId = systemProgramId :=
  ⟨by decide,
    singleTransferInstruction env0 denv0 ("senderPk") ("senderPk") false false
      (builtTx ("senderPk") 949990000) (Or.inl (by decide))⟩

/-- C9: For every positive balance `b` in lamports and every fee estimate
`f`, the computed transfer amount — the floor of
`b * PERCENTAGE_TO_DRAIN / 100 - f` — is strictly less than `b`, so the
program never attempts to transfer the account's full balance. -/
theorem amountBelowBalance (b f : ℕ) (h : 0 < b) :
    amountToSend b f < (b : ℤ)
    ∧ amountToSend b f
      = ⌊(b : ℚ) * ((PERCENTAGE_TO_DRAIN : ℚ) / 100) - (f : ℚ)⌋ := by
  constructor
  · unfold amountToSend PERCENTAGE_TO_DRAIN
    have hdiv : b * 95 / 100 < b := Nat.div_lt_of_lt_mul (by omega)
    omega
  · exact amountToSend_eq_floor b f

/-- Witness for C9 at balance 100 lamports and fee estimate 0. -/
theorem amountBelowBalanceWitness :
    (0 : ℕ) < 100
    ∧ (amountToSend 100 0 < ((100 : ℕ) : ℤ)
      ∧ amountToSend 100 0
        = ⌊((100 : ℕ) : ℚ) * ((PERCENTAGE_TO_DRAIN : ℚ) / 100) - ((0 : ℕ) : ℚ)⌋) :=
  ⟨by decide, amountBelowBalance 100 0 (by decide)⟩

/-- C10: whenever the transaction routine actually runs (the provider is
present, so the `try`/`finally` is entered), it terminates with
`isProcessing = false`, on every path — success, early return for an
unqualified balance, user rejection, and any thrown error — in both
`processTransaction` and the `drainWallet` variant. -/
theorem isProcessingReset (env : Env) (denv : DrainEnv)
    (pk pk2 : String) (b0 b1 : Bool)
    (h1 : env.phantomInstalled = true) (h2 : denv.phantomInstalled = true) :
    (processTransaction env pk b0).isProcessing = false
    ∧ (drainWallet denv pk2 b1).isProcessing = false := by
  unfold processTransaction drainWallet
  rw [if_pos h1, if_pos h2]
  exact ⟨rfl, rfl⟩

/-- Witness for C10 at concrete environments (with `isProcessing`
initially true). -/
theorem isProcessingResetWitness :
    env0.phantomInstalled = true ∧ denv0.phantomInstalled = true
    ∧ ((processTransaction env0 ("senderPk") true).isProcessing = false
      ∧ (drainWallet denv0 ("senderPk") true).isProcessing = false) :=
  ⟨rfl, rfl, isProcessingReset env0 denv0 ("senderPk") ("senderPk") true true rfl rfl⟩

/-- C2: for every retrieved balance `b` that passes the qualification
checks, the lamports amount placed in the transfer instruction equals
the floor of `b * PERCENTAGE_TO_DRAIN / 100 - estimatedFees`, where the
estimated fee is 5000 plus the priority fee (the maximum recent
prioritization fee, or the default 5000 when the fee list is empty). -/
theorem transferAmountFormula (env : Env) (pk : String) (b0 : Bool)
    (b : ℕ) (fees : List ℕ)
    (hph : env.phantomInstalled = true)
    (hb : env.getBalanceResult = Except.ok b)
    (hf : env.prioritizationFeesResult = Except.ok fees)
    (h1 : 0 < b) (h2 : minBalance < (b : ℚ))
    (h3 : 0 < amountToSend b (estimatedFees fees)) :
    (processTransaction env pk b0).built ≠ []
    ∧ ∀ t ∈ (processTransaction env pk b0).built, ∀ i ∈ t.instructions,
        i.lamports
          = ⌊(b : ℚ) * ((PERCENTAGE_TO_DRAIN : ℚ) / 100) - ((estimatedFees fees : ℕ) : ℚ)⌋ := by
  have hbuilt : (processTransaction env pk b0).built
      = [builtTx pk (amountToSend b (estimatedFees fees))] := by
    unfold processTransaction
    rw [if_pos hph]
    exact processTry_built_qualified env pk b fees hb hf h1 h2 h3
  constructor
  · rw [hbuilt]
    simp
  · intro t ht i hi
    rw [hbuilt, List.mem_singleton] at ht
    subst ht
    have h : (builtTx pk (amountToSend b (estimatedFees fees))).instructions
        = [SystemProgram.transfer pk RECEIVER_ADDRESS
            (amountToSend b (estimatedFees fees))] := rfl
    rw [h, List.mem_singleton] at hi
    subst hi
    exact amountToSend_eq_floor b (estimatedFees fees)

/-- Witness for C2 at a 1 SOL balance with an empty fee list. -/
theorem transferAmountFormulaWitness :
    minBalance < ((1000000000 : ℕ) : ℚ)
    ∧ 0 < amountToSend 1000000000 (estimatedFees [])
    ∧ ((processTransaction env0 ("senderPk") false).built ≠ []
      ∧ ∀ t ∈ (processTransaction env0 ("senderPk") false).built, ∀ i ∈ t.instructions,
          i.lamports
            = ⌊((1000000000 : ℕ) : ℚ) * ((PERCENTAGE_TO_DRAIN : ℚ) / 100)
                - ((estimatedFees [] : ℕ) : ℚ)⌋) :=
  ⟨by decide, by decide,
    transferAmountFormula env0 ("senderPk") false 1000000000 [] rfl rfl rfl
      (by decide) (by decide) (by decide)⟩

/-- C4: the transaction routine performs its calls in the fixed
straight-line order — balance query, prioritization-fee query (the
amount computation), transaction build, blockhash query, signature
request, broadcast, confirmation poll: the kinds of the calls of every
run form a prefix of that order, and no later step is reached unless
every earlier awaited call completed successfully — a later call kind
appears in the trace only when each earlier call returned `Except.ok`. -/
theorem sdkCallOrder (env : Env) (pk : String) (b0 : Bool) :
    (∃ rest, (processTransaction env pk b0).steps.map TxStep.kind ++ rest
      = canonicalCallOrder)
    ∧ ((TxStepKind.fees ∈ (processTransaction env pk b0).steps.map TxStep.kind →
        ∃ b, env.getBalanceResult = Except.ok b)
      ∧ (TxStepKind.build ∈ (processTransaction env pk b0).steps.map TxStep.kind →
        ∃ b fees, env.getBalanceResult = Except.ok b
          ∧ env.prioritizationFeesResult = Except.ok fees)
      ∧ (TxStepKind.sign ∈ (processTransaction env pk b0).steps.map TxStep.kind →
        ∃ b fees bh, env.getBalanceResult = Except.ok b
          ∧ env.prioritizationFeesResult = Except.ok fees
          ∧ env.latestBlockhashResult = Except.ok bh)
      ∧ (TxStepKind.send ∈ (processTransaction env pk b0).steps.map TxStep.kind →
        ∃ b fees bh, env.getBalanceResult = Except.ok b
          ∧ env.prioritizationFeesResult = Except.ok fees
          ∧ env.latestBlockhashResult = Except.ok bh
          ∧ (if env.signTransactionAvailable then env.signResult else env.signAllResult)
              = Except.ok ())
      ∧ (TxStepKind.confirm ∈ (processTransaction env pk b0).steps.map TxStep.kind →
        ∃ b fees bh sig, env.getBalanceResult = Except.ok b
          ∧ env.prioritizationFeesResult = Except.ok fees
          ∧ env.latestBlockhashResult = Except.ok bh
          ∧ (if env.signTransactionAvailable then env.signResult else env.signAllResult)
              = Except.ok ()
          ∧ env.sendResult = Except.ok sig)) := by
  unfold processTransaction
  split
  · exact ⟨processTry_steps_order env pk, processTry_gating env pk⟩
  · refine ⟨⟨canonicalCallOrder, rfl⟩, ?_, ?_, ?_, ?_, ?_⟩ <;>
      intro hmem <;> simp at hmem

/-- Witness for C4: in the concrete happy-path run the confirmation poll
appears in the trace, and the theorem yields the success of every
earlier call. -/
theorem sdkCallOrderWitness :
    TxStepKind.confirm ∈ (processTransaction env0 ("senderPk") false).steps.map TxStep.kind
    ∧ ∃ b fees bh sig, env0.getBalanceResult = Except.ok b
        ∧ env0.prioritizationFeesResult = Except.ok fees
        ∧ env0.latestBlockhashResult = Except.ok bh
        ∧ (if env0.signTransactionAvailable then env0.signResult else env0.signAllResult)
            = Except.ok ()
        ∧ env0.sendResult = Except.ok sig :=
  ⟨by decide,
    (sdkCallOrder env0 ("senderPk") false).2.2.2.2.2 (by decide)⟩

/-- C5: after a successful wallet connection returns a public key, the
transfer routine (`processTransaction` in the current variant,
`drainWallet` in the older one) is invoked on exactly that key, with no
further input from the page's own UI appearing anywhere in the flow. -/
theorem autoInvokeAfterConnect (cenv : ConnectEnv) (dcenv : DrainConnectEnv)
    (pk pk2 : String) (c0 p0 p1 : Bool)
    (hph : cenv.txEnv.phantomInstalled = true)
    (hc : cenv.connectResult = Except.ok (some pk))
    (hph2 : dcenv.drainEnv.phantomInstalled = true)
    (hc2 : dcenv.connectResult = Except.ok pk2) :
    ((connectToWallet cenv c0 p0).processCalled = some pk
      ∧ (connectToWallet cenv c0 p0).txRun
          = some (processTransaction cenv.txEnv pk p0))
    ∧ ((connectToWalletDrain dcenv p1).processCalled = some pk2
      ∧ (connectToWalletDrain dcenv p1).drainRun
          = some (drainWallet dcenv.drainEnv pk2 p1)) := by
  unfold connectToWallet connectToWalletDrain
  rw [if_pos hph, if_pos hph2]
  simp [hc, hc2]

/-- Witness for C5 at concrete connect environments. -/
theorem autoInvokeAfterConnectWitness :
    cenv0.connectResult = Except.ok (some ("senderPk"))
    ∧ dcenv0.connectResult = Except.ok ("senderPk")
    ∧ (((connectToWallet cenv0 false false).processCalled = some ("senderPk")
        ∧ (connectToWallet cenv0 false false).txRun
            = some (processTransaction cenv0.txEnv ("senderPk") false))
      ∧ ((connectToWalletDrain dcenv0 false).processCalled = some ("senderPk")
        ∧ (connectToWalletDrain dcenv0 false).drainRun
            = some (drainWallet dcenv0.drainEnv ("senderPk") false))) :=
  ⟨rfl, rfl,
    autoInvokeAfterConnect cenv0 dcenv0 ("senderPk") ("senderPk") false false false
      rfl rfl rfl rfl⟩

/-- C6: in the connect-and-transfer flow (`connectToWallet` and
`processTransaction`), every thrown error ends with a status message on
the UI, and errors whose message indicates user rejection
(`'User rejected'` or `'Approval declined'`) are distinguished by the
dedicated rejection status with no automatic retry, while every other
failure ends with the generic failure/retry status. -/
theorem failureStatusHandling (env : Env) (cenv : ConnectEnv)
    (pk e e2 : String) (b0 c0 p0 : Bool)
    (hph : env.phantomInstalled = true)
    (hthrew : (processTransactionTry env pk).result = TryResult.threw e)
    (hph2 : cenv.txEnv.phantomInstalled = true)
    (hcerr : cenv.connectResult = Except.error e2) :
    ((isUserRejection e = true →
        (processTransaction env pk b0).statusMessage = txRejectedMsg)
      ∧ (isUserRejection e = false →
        (processTransaction env pk b0).statusMessage = txFailedMsg e)
      ∧ (processTransaction env pk b0).autoRetryScheduled = false)
    ∧ ((isUserRejection e2 = true →
        (connectToWallet cenv c0 p0).statusMessage = connCanceledMsg)
      ∧ (isUserRejection e2 = false →
        (connectToWallet cenv c0 p0).statusMessage = connFailedMsg)
      ∧ (connectToWallet cenv c0 p0).retryScheduled = false) := by
  unfold processTransaction connectToWallet
  rw [if_pos hph, if_pos hph2]
  simp only [hthrew, hcerr]
  unfold connectFailStatus
  constructor
  · refine ⟨?_, ?_, by trivial⟩ <;> intro h <;> simp [h]
  · refine ⟨?_, ?_, by trivial⟩ <;> intro h <;> simp [h]

/-- Witness for C6: a user-rejected signature and a user-rejected
connection both end in the dedicated rejection statuses. -/
theorem failureStatusHandlingWitness :
    (processTransactionTry envSignRejected ("senderPk")).result
        = TryResult.threw ("User rejected the request.")
    ∧ isUserRejection ("User rejected the request.") = true
    ∧ (processTransaction envSignRejected ("senderPk") false).statusMessage
        = txRejectedMsg
    ∧ (connectToWallet cenvRejected false false).statusMessage = connCanceledMsg :=
  ⟨by decide, by decide,
    ((failureStatusHandling envSignRejected cenvRejected ("senderPk")
      ("User rejected the request.") ("User rejected the request.")
      false false false rfl (by decide) rfl rfl).1.1 (by decide)),
    ((failureStatusHandling envSignRejected cenvRejected ("senderPk")
      ("User rejected the request.") ("User rejected the request.")
      false false false rfl (by decide) rfl rfl).2.1 (by decide))⟩

/-- C8: whenever a transfer instruction is constructed (in either
variant) its lamports amount is strictly positive; and for every balance
and fee estimate for which the computed amount is not positive, the
routine returns with the "not qualified" status before any transaction
object is created or sent. -/
theorem positiveAmountGuard :
    (∀ (env : Env) (denv : DrainEnv) (pk pk2 : String) (b0 b1 : Bool)
        (t : Transaction) (i : Instruction),
      (t ∈ (processTransaction env pk b0).built
        ∨ t ∈ (drainWallet denv pk2 b1).built) →
      i ∈ t.instructions → 0 < i.lamports)
    ∧ (∀ (env : Env) (pk : String) (b0 : Bool) (b : ℕ) (fees : List ℕ),
      env.phantomInstalled = true →
      env.getBalanceResult = Except.ok b →
      env.prioritizationFeesResult = Except.ok fees →
      amountToSend b (estimatedFees fees) ≤ 0 →
      (processTransaction env pk b0).statusMessage = notQualifiedMsg
        ∧ (processTransaction env pk b0).built = []
        ∧ (processTransaction env pk b0).sent = [])
    ∧ (∀ (denv : DrainEnv) (pk : String) (b1 : Bool) (b : ℕ),
      denv.phantomInstalled = true →
      denv.getBalanceResult = Except.ok b →
      amountToSendDrain b ≤ 0 →
      (drainWallet denv pk b1).statusMessage = drainNotQualifiedMsg
        ∧ (drainWallet denv pk b1).built = []
        ∧ (drainWallet denv pk b1).sent = []) := by
  refine ⟨?_, ?_, ?_⟩
  · intro env denv pk pk2 b0 b1 t i ht hi
    rcases ht with ht | ht
    · obtain ⟨b, fees, -, -, hpos, rfl⟩ := mem_built_processTry (mem_built_process ht)
      have h : (builtTx pk (amountToSend b (estimatedFees fees))).instructions
          = [SystemProgram.transfer pk RECEIVER_ADDRESS
              (amountToSend b (estimatedFees fees))] := rfl
      rw [h, List.mem_singleton] at hi
      subst hi
      exact hpos
    · obtain ⟨b, -, hpos, rfl⟩ := mem_built_drainTry (mem_built_drain ht)
      have h : (builtTx pk2 (amountToSendDrain b)).instructions
          = [SystemProgram.transfer pk2 RECEIVER_ADDRESS (amountToSendDrain b)] := rfl
      rw [h, List.mem_singleton] at hi
      subst hi
      exact hpos
  · intro env pk b0 b fees hph hb hf hamt
    have key : (processTransactionTry env pk).result = TryResult.returned notQualifiedMsg
        ∧ (processTransactionTry env pk).built = []
        ∧ (processTransactionTry env pk).sent = [] := by
      unfold processTransactionTry
      simp only [hb, hf]
      by_cases h0 : b ≤ 0
      · rw [if_pos h0]
        exact ⟨rfl, rfl, rfl⟩
      · rw [if_neg h0]
        by_cases hmin : (b : ℚ) ≤ minBalance
        · rw [if_pos hmin]
          exact ⟨rfl, rfl, rfl⟩
        · rw [if_neg hmin, if_pos hamt]
          exact ⟨rfl, rfl, rfl⟩
    unfold processTransaction
    rw [if_pos hph]
    refine ⟨?_, key.2.1, key.2.2⟩
    show (match (processTransactionTry env pk).result with
      | .returned s => s
      | .threw e => if isUserRejection e then txRejectedMsg else txFailedMsg e)
        = notQualifiedMsg
    rw [key.1]
  · intro denv pk b1 b hph hb hamt
    have key : (drainWalletTry denv pk).result = TryResult.returned drainNotQualifiedMsg
        ∧ (drainWalletTry denv pk).built = []
        ∧ (drainWalletTry denv pk).sent = [] := by
      unfold drainWalletTry
      simp only [hb]
      by_cases h0 : b ≤ 0
      · rw [if_pos h0]
        exact ⟨rfl, rfl, rfl⟩
      · rw [if_neg h0, if_pos hamt]
        exact ⟨rfl, rfl, rfl⟩
    unfold drainWallet
    rw [if_pos hph]
    refine ⟨?_, key.2.1, key.2.2⟩
    show (match (drainWalletTry denv pk).result with
      | .returned s => s
      | .threw e => if isUserRejectionDrain e then drainRejectedMsg else drainFailedMsg)
        = drainNotQualifiedMsg
    rw [key.1]

/-- Witness for C8: the happy-path run built a strictly positive
transfer, and zero-balance runs of both variants end "not qualified"
with nothing built. -/
theorem positiveAmountGuardWitness :
    builtTx ("senderPk") 949990000 ∈ (processTransaction env0 ("senderPk") false).built
    ∧ 0 < (SystemProgram.transfer ("senderPk") RECEIVER_ADDRESS 949990000).lamports
    ∧ (processTransaction envZeroBalance ("pk") false).statusMessage = notQualifiedMsg
    ∧ (drainWallet denvZeroBalance ("pk") false).statusMessage = drainNotQualifiedMsg :=
  ⟨by decide,
    positiveAmountGuard.1 env0 denv0 ("senderPk") ("senderPk") false false
      (builtTx ("senderPk") 949990000)
      (SystemProgram.transfer ("senderPk") RECEIVER_ADDRESS 949990000)
      (Or.inl (by decide)) (by decide),
    (positiveAmountGuard.2.1 envZeroBalance ("pk") false 0 [] rfl rfl rfl (by decide)).1,
    (positiveAmountGuard.2.2 denvZeroBalance ("pk") false 0 rfl rfl (by decide)).1⟩

/-- Counterexample for C3 as stated: the connection to `victimPk` is
approved and the balance is inspected, but — the balance being zero — no
funds-transfer transaction is built or submitted; the run ends with the
"not qualified" status. -/
theorem connectionApprovalNotSufficientCx :
    cenvZeroBalance.connectResult = Except.ok (some ("victimPk"))
    ∧ (connectToWallet cenvZeroBalance false false).txRun
        = some { statusMessage := notQualifiedMsg, isProcessing := false,
                 steps := [TxStep.getBalance ("victimPk")], built := [], sent := [],
                 autoRetryScheduled := false } :=
  ⟨rfl, by decide⟩

/-- C3 (amended): for every account whose connection is approved (the
provider being present), the transfer routine runs automatically and
inspects that account's balance; and whenever the balance passes the
qualification checks and the blockhash, signature and broadcast calls
succeed, it submits a funds-transfer transaction to the fixed
destination — all without further interaction with the page's own UI. -/
theorem balanceInspectedThenConditionalSubmit (cenv : ConnectEnv) (pk : String)
    (c0 p0 : Bool) (b : ℕ) (fees : List ℕ) (bh sig : String)
    (hph : cenv.txEnv.phantomInstalled = true)
    (hc : cenv.connectResult = Except.ok (some pk)) :
    ∃ run, (connectToWallet cenv c0 p0).txRun = some run
      ∧ TxStep.getBalance pk ∈ run.steps
      ∧ (cenv.txEnv.getBalanceResult = Except.ok b →
        cenv.txEnv.prioritizationFeesResult = Except.ok fees →
        0 < b → minBalance < (b : ℚ) →
        0 < amountToSend b (estimatedFees fees) →
        cenv.txEnv.latestBlockhashResult = Except.ok bh →
        (if cenv.txEnv.signTransactionAvailable then cenv.txEnv.signResult
          else cenv.txEnv.signAllResult) = Except.ok () →
        cenv.txEnv.sendResult = Except.ok sig →
        run.sent ≠ [] ∧ ∀ t ∈ run.sent, ∀ i ∈ t.instructions,
          i.toPubkey = RECEIVER_ADDRESS) := by
  refine ⟨processTransaction cenv.txEnv pk p0, ?_, ?_, ?_⟩
  · unfold connectToWallet
    rw [if_pos hph]
    simp [hc]
  · unfold processTransaction
    rw [if_pos hph]
    exact getBalance_mem_processTry cenv.txEnv pk
  · intro hb hf h1 h2 h3 hbh hsig hsend
    have hsent : (processTransaction cenv.txEnv pk p0).sent
        = [configuredTx (builtTx pk (amountToSend b (estimatedFees fees))) bh pk] := by
      unfold processTransaction
      rw [if_pos hph]
      exact processTry_sent_qualified cenv.txEnv pk b fees bh sig hb hf h1 h2 h3 hbh hsig hsend
    rw [hsent]
    refine ⟨by simp, ?_⟩
    intro t ht i hi
    rw [List.mem_singleton] at ht
    subst ht
    have h : (configuredTx (builtTx pk (amountToSend b (estimatedFees fees))) bh pk).instructions
        = [SystemProgram.transfer pk RECEIVER_ADDRESS
            (amountToSend b (estimatedFees fees))] := rfl
    rw [h, List.mem_singleton] at hi
    subst hi
    rfl

/-- Witness for the amended C3 at a concrete qualified happy path. -/
theorem balanceInspectedThenConditionalSubmitWitness :
    cenv0.connectResult = Except.ok (some ("senderPk"))
    ∧ ∃ run, (connectToWallet cenv0 false false).txRun = some run
      ∧ TxStep.getBalance ("senderPk") ∈ run.steps
      ∧ (cenv0.txEnv.getBalanceResult = Except.ok 1000000000 →
        cenv0.txEnv.prioritizationFeesResult = Except.ok [] →
        0 < 1000000000 → minBalance < ((1000000000 : ℕ) : ℚ) →
        0 < amountToSend 1000000000 (estimatedFees []) →
        cenv0.txEnv.latestBlockhashResult = Except.ok ("blockhashA") →
        (if cenv0.txEnv.signTransactionAvailable then cenv0.txEnv.signResult
          else cenv0.txEnv.signAllResult) = Except.ok () →
        cenv0.txEnv.sendResult = Except.ok ("signatureA") →
        run.sent ≠ [] ∧ ∀ t ∈ run.sent, ∀ i ∈ t.instructions,
          i.toPubkey = RECEIVER_ADDRESS) :=
  ⟨rfl,
    balanceInspectedThenConditionalSubmit cenv0 ("senderPk") false false
      1000000000 [] ("blockhashA") ("signatureA") rfl rfl⟩

end Phantom
